import Mathlib

/-!
Verification of the atrofac GUI control loop (`src/gui/src/main.rs`).

The file embeds the five functions of `main.rs` (`apply`, `load_tray`,
`on_tray`, `run_main_with_error`, `run_main`) as explicit state-passing
functions over a `World` record.  The configuration engine and the OS
tray binding live in external crates (`atrofac_library`,
`atrofac_libgui`) whose sources are not part of the visible slice;
their operations are modelled from the spec's external-interface
contract (§6) as fallible primitives.  Fallibility is expressed by a
static `Faults` record: each external call either succeeds (mutating
the world and appending an `Effect` to the trace) or fails with a
fixed descriptive error, matching the source's `?` propagation.
-/

/-- Error type of the engine crate (`AfErr`); carries a message, and
`format!("{}", err)` yields that message. -/
structure AfErr where
  msg : String
deriving DecidableEq

/-- Modelled from the spec: a Plan is identified by a unique name and
carries an optional positive integer `update_interval_sec` (§3). -/
structure Plan where
  name : String
  update_interval_sec : Option Nat
deriving DecidableEq

/-- Modelled from the spec: the persisted configuration (plan sequence
and active-plan name) backing `load_configuration`/`save_configuration`. -/
structure EngineConfig where
  plans : List Plan
  active : Option String
deriving DecidableEq

/-- Modelled from the spec: the engine state (§3): an ordered sequence
of plans, at most one active (by name), the configuration-file path,
and the on-disk configuration it loads from / saves to. -/
structure Engine where
  plans : List Plan
  active : Option String
  configFile : String
  disk : EngineConfig
deriving DecidableEq

/-- Modelled from the spec: "report the active plan (optional — empty
when none)" (§6); looks the active name up in the plan sequence. -/
def Engine.active_plan (e : Engine) : Option Plan :=
  match e.active with
  | some nm => e.plans.find? (fun p => p.name == nm)
  | none => none

/-- Modelled from the spec: "report plan count" (§6); equals the
sequence length (§3). -/
def Engine.number_of_plans (e : Engine) : Nat :=
  e.plans.length

/-- Modelled from the spec: "enumerate available plans as an ordered
name list" (§6). -/
def Engine.available_plans (e : Engine) : List String :=
  e.plans.map Plan.name

/-- Modelled from the spec: "fetch a plan name by position" (§6). -/
def Engine.plan_by_index (e : Engine) (i : Nat) : Option String :=
  e.available_plans.get? i

/-- Modelled from the spec: "set the active plan by name" (§6);
infallible in the source (no `?` on the call). -/
def Engine.set_active_plan (e : Engine) (nm : String) : Engine :=
  { e with active := some nm }

/-- Modelled from the spec: "report the configuration file path" (§6). -/
def Engine.config_file (e : Engine) : String :=
  e.configFile

/-- A tray menu item: a string entry with a visual state, or a
separator (`MenuItem` of the OS binding). -/
inductive MenuItemState
  | default
  | checked
deriving DecidableEq

/-- `MenuItem::String(StringMenuItem { text, state })` or
`MenuItem::Separator`. -/
inductive MenuItem
  | string (text : String) (state : MenuItemState)
  | separator
deriving DecidableEq

/-- Observable effects of the external calls, recorded in order. -/
inductive Effect
  | load_configuration
  | save_configuration
  | engine_apply
  | set_timer (secs : Nat)
  | tray_clear
  | tray_add (item : MenuItem)
  | tray_tooltip (text : String)
  | edit (path : String)
  | quit
  | show_err (title text : String)
deriving DecidableEq

/-- Which external calls fail (model of the source's `?` fallibility:
every engine / OS-binding call returns success-or-error). -/
structure Faults where
  load_configuration : Bool
  save_configuration : Bool
  engine_apply : Bool
  set_timer : Bool
  tray_clear : Bool
  tray_add : Bool
  tray_tooltip : Bool
  edit : Bool
  quit : Bool
  show_err : Bool
deriving DecidableEq

/-- The fault-free behaviour: every external call succeeds. -/
def noFaults : Faults :=
  ⟨false, false, false, false, false, false, false, false, false, false⟩

/-- The mutable state threaded through the loop: the engine, the
OS-side menu, tooltip, the single timer, files opened for editing,
the quit request, shown dialogs, and the ordered effect trace. -/
structure World where
  engine : Engine
  menu : List MenuItem
  tooltip : Option String
  timer : Option Nat
  edited : List String
  quitted : Bool
  shownErrors : List (String × String)
  trace : List Effect
deriving DecidableEq

/-- Result of a fallible step: the world after the step, and the error
if the step failed (mutations made before the failure persist, as with
`&mut` arguments in the source). -/
def Res : Type := World × Option AfErr

/-- Sequencing with `?`-propagation: on success continue, on error
short-circuit with the world reached so far. -/
def Res.then (r : Res) (k : World → Res) : Res :=
  match r with
  | (w, none) => k w
  | (w, some e) => (w, some e)

/-- Modelled from the spec: "load configuration (fails with a
descriptive error on malformed or missing file)" (§6); replaces the
in-memory plan sequence and active plan by the on-disk configuration. -/
def engine_load_configuration (f : Faults) (w : World) : Res :=
  if f.load_configuration then (w, some ⟨"cannot load configuration"⟩)
  else ({ w with
          engine := { w.engine with
                      plans := w.engine.disk.plans,
                      active := w.engine.disk.active },
          trace := w.trace ++ [Effect.load_configuration] }, none)

/-- Modelled from the spec: "save configuration" (§6); persists the
in-memory plan sequence and active plan to disk. -/
def engine_save_configuration (f : Faults) (w : World) : Res :=
  if f.save_configuration then (w, some ⟨"cannot save configuration"⟩)
  else ({ w with
          engine := { w.engine with
                      disk := ⟨w.engine.plans, w.engine.active⟩ },
          trace := w.trace ++ [Effect.save_configuration] }, none)

/-- Modelled from the spec: "apply the active plan's settings to
hardware (fails on hardware/driver error)" (§6); external effect only. -/
def engine_apply (f : Faults) (w : World) : Res :=
  if f.engine_apply then (w, some ⟨"cannot apply plan"⟩)
  else ({ w with trace := w.trace ++ [Effect.engine_apply] }, none)

/-- Modelled from the spec: "arm/replace a single timer given a
duration" (§6). -/
def set_timer (f : Faults) (w : World) (secs : Nat) : Res :=
  if f.set_timer then (w, some ⟨"cannot set timer"⟩)
  else ({ w with
          timer := some secs,
          trace := w.trace ++ [Effect.set_timer secs] }, none)

/-- Modelled from the spec: "clear all tray menu entries" (§6). -/
def tray_clear (f : Faults) (w : World) : Res :=
  if f.tray_clear then (w, some ⟨"cannot clear tray"⟩)
  else ({ w with
          menu := [],
          trace := w.trace ++ [Effect.tray_clear] }, none)

/-- Modelled from the spec: "add one entry (text + checked/default
visual state, or a separator marker)" (§6). -/
def tray_add (f : Faults) (w : World) (item : MenuItem) : Res :=
  if f.tray_add then (w, some ⟨"cannot add tray item"⟩)
  else ({ w with
          menu := w.menu ++ [item],
          trace := w.trace ++ [Effect.tray_add item] }, none)

/-- Modelled from the spec: "set the tray tooltip text" (§6). -/
def tray_tooltip (f : Faults) (w : World) (text : String) : Res :=
  if f.tray_tooltip then (w, some ⟨"cannot set tooltip"⟩)
  else ({ w with
          tooltip := some text,
          trace := w.trace ++ [Effect.tray_tooltip text] }, none)

/-- Modelled from the spec: "open a given file path in an external
editor" (§6). -/
def system_edit (f : Faults) (w : World) (path : String) : Res :=
  if f.edit then (w, some ⟨"cannot edit file"⟩)
  else ({ w with
          edited := w.edited ++ [path],
          trace := w.trace ++ [Effect.edit path] }, none)

/-- Modelled from the spec: "request process quit" (§6). -/
def system_quit (f : Faults) (w : World) : Res :=
  if f.quit then (w, some ⟨"cannot quit"⟩)
  else ({ w with
          quitted := true,
          trace := w.trace ++ [Effect.quit] }, none)

/-- Modelled from the spec: "show a modal message dialog" (§6). -/
def show_err_message (f : Faults) (w : World) (title text : String) : Res :=
  if f.show_err then (w, some ⟨"cannot show message"⟩)
  else ({ w with
          shownErrors := w.shownErrors ++ [(title, text)],
          trace := w.trace ++ [Effect.show_err title text] }, none)

/-- `MENU_ITEM_RELOAD_CONFIG_OFFSET` (main.rs line 11). -/
def MENU_ITEM_RELOAD_CONFIG_OFFSET : Nat := 1
/-- `MENU_ITEM_EDIT_CONFIG_OFFSET` (main.rs line 12). -/
def MENU_ITEM_EDIT_CONFIG_OFFSET : Nat := 2
/-- `MENU_ITEM_EDIT_EXIT_OFFSET` (main.rs line 13). -/
def MENU_ITEM_EDIT_EXIT_OFFSET : Nat := 3
/-- `DEFAULT_INTERVAL_SEC` (main.rs line 14). -/
def DEFAULT_INTERVAL_SEC : Nat := 120

/-- `fn apply` (main.rs lines 16-27): `engine.apply()?`, then if an
active plan exists, arm the timer with its interval or the default. -/
def apply (f : Faults) (w : World) : Res :=
  (engine_apply f w).then fun w =>
    match w.engine.active_plan with
    | some active_plan =>
        let interval_secs := active_plan.update_interval_sec.getD DEFAULT_INTERVAL_SEC
        set_timer f w interval_secs
    | none => (w, none)

/-- The `for (_, plan_name) in engine.available_plans()` loop of
`load_tray` (main.rs lines 33-47): add one entry per plan, checked iff
it is the active plan, aborting on the first failed add. -/
def addPlans (f : Faults) (active_plan : Option Plan) :
    List String → World → Res
  | [], w => (w, none)
  | plan_name :: rest, w =>
      let active : Bool :=
        match active_plan with
        | some p => p.name == plan_name
        | none => false
      (tray_add f w (MenuItem.string plan_name
          (if active then MenuItemState.checked else MenuItemState.default))).then
        (addPlans f active_plan rest)

/-- `fn load_tray` (main.rs lines 29-62): clear the tray, add one entry
per plan, then a separator and the three fixed action entries. -/
def load_tray (f : Faults) (w : World) : Res :=
  (tray_clear f w).then fun w =>
  (addPlans f w.engine.active_plan w.engine.available_plans w).then fun w =>
  (tray_add f w MenuItem.separator).then fun w =>
  (tray_add f w (MenuItem.string "Reload configuration" MenuItemState.default)).then fun w =>
  (tray_add f w (MenuItem.string "Edit configuration" MenuItemState.default)).then fun w =>
  tray_add f w (MenuItem.string "Quit application" MenuItemState.default)

/-- `fn on_tray` (main.rs lines 64-109).  `usize::try_from` on the menu
item id cannot fail for the `u32` ids the binding delivers, so the
index is taken as a `Nat` directly.  Indices at or beyond the plan
count are dispatched on `offset = idx - number_of_plans` against the
three action offsets; smaller indices select the plan at that position. -/
def on_tray (f : Faults) (menu_item_id : Nat) (w : World) : Res :=
  let index_usize := menu_item_id
  let number_of_plans := w.engine.number_of_plans
  if number_of_plans ≤ index_usize then
    let offset := index_usize - number_of_plans
    if offset = MENU_ITEM_RELOAD_CONFIG_OFFSET then
      (engine_load_configuration f w).then fun w =>
      (load_tray f w).then fun w =>
      apply f w
    else if offset = MENU_ITEM_EDIT_CONFIG_OFFSET then
      system_edit f w w.engine.config_file
    else if offset = MENU_ITEM_EDIT_EXIT_OFFSET then
      system_quit f w
    else
      (w, some ⟨"Unknown menu item offset " ++ toString offset ++ "."⟩)
  else
    match w.engine.plan_by_index index_usize with
    | some plan_name =>
        let w := { w with engine := w.engine.set_active_plan plan_name }
        (engine_save_configuration f w).then fun w =>
        (apply f w).then fun w =>
        load_tray f w
    | none =>
        (w, some ⟨"Plan #" ++ toString menu_item_id ++ " not found."⟩)

/-- A `SystemEvent` of the OS binding: a timer tick or a tray menu
activation carrying the menu item index. -/
inductive SystemEvent
  | onTimer
  | onTray (menu_item_id : Nat)
deriving DecidableEq

/-- One outcome of the blocking `receive_event` call: an error, an
event, or the `None` shutdown sentinel. -/
inductive ROutcome
  | fail (e : AfErr)
  | ev (e : SystemEvent)
  | shutdown
deriving DecidableEq

/-- The `loop` of `run_main_with_error` (main.rs lines 121-136),
driven by the scripted outcomes of successive `receive_event` calls
(an exhausted script stands for an event source that delivers nothing
further and is treated like the shutdown sentinel). -/
def runLoop (f : Faults) : List ROutcome → World → Res
  | [], w => (w, none)
  | ROutcome.fail e :: _, w => (w, some e)
  | ROutcome.shutdown :: _, w => (w, none)
  | ROutcome.ev SystemEvent.onTimer :: rest, w =>
      (apply f w).then (runLoop f rest)
  | ROutcome.ev (SystemEvent.onTray menu_item_id) :: rest, w =>
      (on_tray f menu_item_id w).then (runLoop f rest)

/-- The tooltip text set at startup (main.rs line 118). -/
def tooltipText : String :=
  "Control fan curve and power profile for Asus Zephyrus ROG G14."

/-- `fn run_main_with_error` (main.rs lines 111-137): load the
configuration, apply, render the tray, set the tooltip, then loop. -/
def run_main_with_error (f : Faults) (events : List ROutcome) (w : World) : Res :=
  (engine_load_configuration f w).then fun w =>
  (apply f w).then fun w =>
  (load_tray f w).then fun w =>
  (tray_tooltip f w tooltipText).then fun w =>
  runLoop f events w

/-- `fn run_main` (main.rs lines 139-145): on error, show one modal
dialog with the formatted error; `none` models the `.expect` abort when
the dialog itself cannot be shown. -/
def run_main (f : Faults) (events : List ROutcome) (w : World) : Option World :=
  match run_main_with_error f events w with
  | (w', none) => some w'
  | (w', some err) =>
      match show_err_message f w' "Error" err.msg with
      | (w'', none) => some w''
      | (_, some _) => none

/-! ## Helper lemmas -/

@[simp]
theorem Res.then_ok (w : World) (k : World → Res) :
    Res.then (w, none) k = k w := rfl

@[simp]
theorem Res.then_err (w : World) (e : AfErr) (k : World → Res) :
    Res.then (w, some e) k = (w, some e) := rfl

/-- The menu items the plan loop of `load_tray` adds: one string entry
per plan name, checked exactly for the active plan. -/
def planMenuItems (active_plan : Option Plan) (names : List String) : List MenuItem :=
  names.map fun plan_name =>
    MenuItem.string plan_name
      (if (match active_plan with
           | some p => p.name == plan_name
           | none => false) then MenuItemState.checked else MenuItemState.default)

theorem addPlans_eq (f : Faults) (hf : f.tray_add = false) (act : Option Plan) :
    ∀ (names : List String) (w : World),
      addPlans f act names w =
        ({ w with
           menu := w.menu ++ planMenuItems act names,
           trace := w.trace ++ (planMenuItems act names).map Effect.tray_add }, none)
  | [], w => by
      simp [addPlans, planMenuItems]
  | plan_name :: rest, w => by
      simp only [addPlans, planMenuItems, tray_add, hf, Bool.false_eq_true, if_false,
        List.map_cons, Res.then_ok]
      rw [addPlans_eq f hf act rest]
      simp [planMenuItems, List.append_assoc]

/-- The complete menu `load_tray` renders: the plan entries followed by
the separator and the three fixed action entries. -/
def renderedMenu (e : Engine) : List MenuItem :=
  planMenuItems e.active_plan e.available_plans ++
    [MenuItem.separator,
     MenuItem.string "Reload configuration" MenuItemState.default,
     MenuItem.string "Edit configuration" MenuItemState.default,
     MenuItem.string "Quit application" MenuItemState.default]

theorem load_tray_eq (f : Faults) (h1 : f.tray_clear = false)
    (h2 : f.tray_add = false) (w : World) :
    load_tray f w =
      ({ w with
         menu := renderedMenu w.engine,
         trace := w.trace ++
           Effect.tray_clear :: (renderedMenu w.engine).map Effect.tray_add }, none) := by
  simp only [load_tray, tray_clear, h1, Bool.false_eq_true, if_false, Res.then_ok]
  rw [addPlans_eq f h2]
  simp only [Res.then_ok, tray_add, h2, Bool.false_eq_true, if_false]
  simp [renderedMenu, List.append_assoc]

theorem apply_none (f : Faults) (w : World) (hf : f.engine_apply = false)
    (h : w.engine.active_plan = none) :
    apply f w = ({ w with trace := w.trace ++ [Effect.engine_apply] }, none) := by
  simp [apply, engine_apply, hf, h]

theorem apply_some (f : Faults) (w : World) (p : Plan)
    (hf : f.engine_apply = false) (hs : f.set_timer = false)
    (h : w.engine.active_plan = some p) :
    apply f w =
      ({ w with
         timer := some (p.update_interval_sec.getD DEFAULT_INTERVAL_SEC),
         trace := w.trace ++
           [Effect.engine_apply,
            Effect.set_timer (p.update_interval_sec.getD DEFAULT_INTERVAL_SEC)] }, none) := by
  simp [apply, engine_apply, hf, h, set_timer, hs]

/-! ## Index codec (claims C1, C2) -/

/-- Spec-side decode of an activated menu index (spec §4.1/§8),
written with the spec's addition-based offsets: `idx < n` selects the
plan at position `idx`; `idx = n+1` reloads; `idx = n+2` edits;
`idx = n+3` quits; every other `idx ≥ n` is the unrecognized-action
error.  To be compared with `on_tray`, which subtracts and matches. -/
def menuDecodeSpec (f : Faults) (menu_item_id : Nat) (w : World) : Res :=
  let n := w.engine.number_of_plans
  if menu_item_id < n then
    let plan_name := w.engine.available_plans.getD menu_item_id ""
    let w := { w with engine := w.engine.set_active_plan plan_name }
    (engine_save_configuration f w).then fun w =>
    (apply f w).then fun w =>
    load_tray f w
  else if menu_item_id = n + 1 then
    (engine_load_configuration f w).then fun w =>
    (load_tray f w).then fun w =>
    apply f w
  else if menu_item_id = n + 2 then
    system_edit f w w.engine.config_file
  else if menu_item_id = n + 3 then
    system_quit f w
  else
    (w, some ⟨"Unknown menu item offset " ++ toString (menu_item_id - n) ++ "."⟩)

/-- C1: for every number of plans `n ≥ 0` and every activated menu
index `idx`, `on_tray` classifies `idx < n` as selection of the plan at
position `idx`, `idx = n+1` as reload-configuration, `idx = n+2` as
edit-configuration, `idx = n+3` as quit-application, and every other
`idx ≥ n` as an unrecognized-action error — i.e. `on_tray` agrees with
the spec-side decoder on every index. -/
theorem on_tray_decodes_menu_index (f : Faults) (menu_item_id : Nat) (w : World) :
    on_tray f menu_item_id w = menuDecodeSpec f menu_item_id w := by
  unfold on_tray menuDecodeSpec
  by_cases hlt : menu_item_id < w.engine.number_of_plans
  · have hge : ¬ w.engine.number_of_plans ≤ menu_item_id := Nat.not_le.mpr hlt
    have hlen : menu_item_id < w.engine.available_plans.length := by
      simpa [Engine.available_plans, Engine.number_of_plans] using hlt
    obtain ⟨nm, hnm⟩ : ∃ nm, w.engine.plan_by_index menu_item_id = some nm := by
      exact ⟨_, List.get?_eq_get hlen⟩
    have hgetD : w.engine.available_plans.getD menu_item_id "" = nm := by
      have := hnm
      unfold Engine.plan_by_index at this
      rw [List.getD_eq_getElem?_getD, ← List.get?_eq_getElem?, this, Option.getD_some]
    simp only [hge, if_false, hlt, if_true, hnm, hgetD]
  · have hge : w.engine.number_of_plans ≤ menu_item_id := Nat.not_lt.mp hlt
    by_cases h1 : menu_item_id = w.engine.number_of_plans + 1
    · have ho : menu_item_id - w.engine.number_of_plans = 1 := by omega
      simp [hge, hlt, h1, ho, MENU_ITEM_RELOAD_CONFIG_OFFSET]
    · by_cases h2 : menu_item_id = w.engine.number_of_plans + 2
      · have ho : menu_item_id - w.engine.number_of_plans = 2 := by omega
        simp [hge, hlt, h2, ho, MENU_ITEM_RELOAD_CONFIG_OFFSET,
          MENU_ITEM_EDIT_CONFIG_OFFSET]
      · by_cases h3 : menu_item_id = w.engine.number_of_plans + 3
        · have ho : menu_item_id - w.engine.number_of_plans = 3 := by omega
          simp [hge, hlt, h3, ho, MENU_ITEM_RELOAD_CONFIG_OFFSET,
            MENU_ITEM_EDIT_CONFIG_OFFSET, MENU_ITEM_EDIT_EXIT_OFFSET]
        · have ho1 : ¬ menu_item_id - w.engine.number_of_plans =
            MENU_ITEM_RELOAD_CONFIG_OFFSET := by
            unfold MENU_ITEM_RELOAD_CONFIG_OFFSET; omega
          have ho2 : ¬ menu_item_id - w.engine.number_of_plans =
            MENU_ITEM_EDIT_CONFIG_OFFSET := by
            unfold MENU_ITEM_EDIT_CONFIG_OFFSET; omega
          have ho3 : ¬ menu_item_id - w.engine.number_of_plans =
            MENU_ITEM_EDIT_EXIT_OFFSET := by
            unfold MENU_ITEM_EDIT_EXIT_OFFSET; omega
          simp [hge, hlt, h1, h2, h3, ho1, ho2, ho3]

/-- A world with no plans, used for the concrete counterexamples. -/
def emptyWorld : World :=
  ⟨⟨[], none, "config.yaml", ⟨[], none⟩⟩, [], none, none, [], false, [], []⟩

/-- C2 counterexample: with `n = 0` plans, the activation index
`idx = n = 0` (the separator position) is handled as the
unrecognized-action error "Unknown menu item offset 0.", refuting the
claim that handling it is not an unrecognized-action error. -/
theorem separator_index_is_error_cex :
    (on_tray noFaults 0 emptyWorld).2 = some ⟨"Unknown menu item offset 0."⟩ := rfl

/-- C2 (amended): for every state and fault pattern, the activation
index `idx = n` (offset 0, the separator position) falls into the
catch-all of the offset dispatch: handling it returns the
unrecognized-action error "Unknown menu item offset 0." and performs
no engine or tray mutation (the world is returned unchanged). -/
theorem separator_index_unknown_offset_error (f : Faults) (w : World) :
    on_tray f w.engine.number_of_plans w =
      (w, some ⟨"Unknown menu item offset 0."⟩) := by
  unfold on_tray
  simp [Nat.sub_self, MENU_ITEM_RELOAD_CONFIG_OFFSET, MENU_ITEM_EDIT_CONFIG_OFFSET,
    MENU_ITEM_EDIT_EXIT_OFFSET]
  rfl

/-! ## Apply step (claims C3, C10) -/

/-- A world whose single plan "Silent" (interval 60) is active. -/
def world60 : World :=
  ⟨⟨[⟨"Silent", some 60⟩], some "Silent", "config.yaml",
    ⟨[⟨"Silent", some 60⟩], some "Silent"⟩⟩, [], none, none, [], false, [], []⟩

/-- C3: Apply Step timer contract: when the engine apply call and the
timer call succeed, a state whose active plan has
`update_interval_sec = 60` arms the timer for 60 seconds, a state
whose active plan has no interval arms it for 120 seconds, and a state
with no active plan runs the engine apply call but arms no timer (the
world is unchanged except for the recorded apply effect). -/
theorem apply_timer_contract (f : Faults) (w : World) (p : Plan)
    (h1 : f.engine_apply = false) (h2 : f.set_timer = false) :
    (w.engine.active_plan = some p → p.update_interval_sec = some 60 →
      ((apply f w).1.timer = some 60 ∧ (apply f w).2 = none)) ∧
    (w.engine.active_plan = some p → p.update_interval_sec = none →
      ((apply f w).1.timer = some 120 ∧ (apply f w).2 = none)) ∧
    (w.engine.active_plan = none →
      apply f w = ({ w with trace := w.trace ++ [Effect.engine_apply] }, none)) := by
  refine ⟨?_, ?_, ?_⟩
  · intro ha hi
    rw [apply_some f w p h1 h2 ha]
    simp [hi, DEFAULT_INTERVAL_SEC]
  · intro ha hi
    rw [apply_some f w p h1 h2 ha]
    simp [hi, DEFAULT_INTERVAL_SEC]
  · intro ha
    exact apply_none f w h1 ha

theorem apply_timer_contract_witness :
    noFaults.engine_apply = false ∧ noFaults.set_timer = false ∧
      world60.engine.active_plan = some ⟨"Silent", some 60⟩ ∧
      ((apply noFaults world60).1.timer = some 60 ∧ (apply noFaults world60).2 = none) :=
  ⟨rfl, rfl, rfl,
    (apply_timer_contract noFaults world60 ⟨"Silent", some 60⟩ rfl rfl).1 rfl rfl⟩

/-- C10: when the engine apply call returns an error, the Apply Step
returns that error and the timer is neither set nor replaced (no state
change and no recorded effect at all). -/
theorem apply_error_no_timer (f : Faults) (w : World) (h : f.engine_apply = true) :
    apply f w = (w, some ⟨"cannot apply plan"⟩) ∧
      (apply f w).1.timer = w.timer ∧ (apply f w).1.trace = w.trace := by
  have key : apply f w = (w, some ⟨"cannot apply plan"⟩) := by
    simp [apply, engine_apply, h]
  exact ⟨key, by rw [key], by rw [key]⟩

theorem apply_error_no_timer_witness :
    ({ noFaults with engine_apply := true } : Faults).engine_apply = true ∧
      apply { noFaults with engine_apply := true } world60 =
        (world60, some ⟨"cannot apply plan"⟩) :=
  ⟨rfl, (apply_error_no_timer { noFaults with engine_apply := true } world60 rfl).1⟩

/-! ## Tray renderer (claim C4) -/

/-- A world with plans Silent, Balanced, Turbo and active plan
Balanced. -/
def trayWorld : World :=
  ⟨⟨[⟨"Silent", none⟩, ⟨"Balanced", some 60⟩, ⟨"Turbo", none⟩], some "Balanced",
    "config.yaml",
    ⟨[⟨"Silent", none⟩, ⟨"Balanced", some 60⟩, ⟨"Turbo", none⟩], some "Balanced"⟩⟩,
   [], none, none, [], false, [], []⟩

/-- C4: rebuilding the tray for plans ["Silent","Balanced","Turbo"]
with active plan "Balanced" succeeds and performs exactly the
additions Silent(default), Balanced(checked), Turbo(default),
separator, "Reload configuration"(default), "Edit configuration"
(default), "Quit application"(default), in that order — six string
entries, plus the one separator between plans and actions. -/
theorem load_tray_concrete_menu :
    (load_tray noFaults trayWorld).2 = none ∧
    (load_tray noFaults trayWorld).1.menu =
      [MenuItem.string "Silent" MenuItemState.default,
       MenuItem.string "Balanced" MenuItemState.checked,
       MenuItem.string "Turbo" MenuItemState.default,
       MenuItem.separator,
       MenuItem.string "Reload configuration" MenuItemState.default,
       MenuItem.string "Edit configuration" MenuItemState.default,
       MenuItem.string "Quit application" MenuItemState.default] ∧
    ((load_tray noFaults trayWorld).1.menu.countP fun item =>
        match item with
        | MenuItem.string _ _ => true
        | MenuItem.separator => false) = 6 :=
  ⟨rfl, rfl, rfl⟩

/-! ## Dispatch loop: shutdown sentinel (claim C6) -/

/-- C6: whatever world the prior events produced, when the blocking
receive yields the shutdown sentinel while the loop is running, the
loop returns success immediately: the world — engine, tray, timer,
trace — is returned unchanged, whatever outcomes the script still
holds. -/
theorem run_loop_shutdown_returns_success (f : Faults) (rest : List ROutcome)
    (w : World) :
    runLoop f (ROutcome.shutdown :: rest) w = (w, none) := rfl

/-! ## Edit action (claim C8) -/

/-- C8: an activation that decodes to edit-configuration (offset 2)
invokes the OS open-for-editing action on the engine's configuration
file path and leaves the engine state, the tray menu and the timer
unchanged, for every fault pattern. -/
theorem edit_action_frame (f : Faults) (w : World) :
    on_tray f (w.engine.number_of_plans + MENU_ITEM_EDIT_CONFIG_OFFSET) w =
      system_edit f w w.engine.config_file ∧
    (on_tray f (w.engine.number_of_plans + MENU_ITEM_EDIT_CONFIG_OFFSET) w).1.engine =
      w.engine ∧
    (on_tray f (w.engine.number_of_plans + MENU_ITEM_EDIT_CONFIG_OFFSET) w).1.menu =
      w.menu ∧
    (on_tray f (w.engine.number_of_plans + MENU_ITEM_EDIT_CONFIG_OFFSET) w).1.timer =
      w.timer := by
  have key : on_tray f (w.engine.number_of_plans + MENU_ITEM_EDIT_CONFIG_OFFSET) w =
      system_edit f w w.engine.config_file := by
    unfold on_tray
    have hge : w.engine.number_of_plans ≤
        w.engine.number_of_plans + MENU_ITEM_EDIT_CONFIG_OFFSET :=
      Nat.le_add_right _ _
    have ho : w.engine.number_of_plans + MENU_ITEM_EDIT_CONFIG_OFFSET -
        w.engine.number_of_plans = MENU_ITEM_EDIT_CONFIG_OFFSET := by omega
    simp [hge, ho, MENU_ITEM_RELOAD_CONFIG_OFFSET, MENU_ITEM_EDIT_CONFIG_OFFSET]
  refine ⟨key, ?_, ?_, ?_⟩ <;> rw [key] <;> unfold system_edit <;>
    cases hf : f.edit <;> simp [hf]

/-! ## Plan selection ordering (claim C5) -/

/-- C5: for every valid plan index (the engine resolves the index to a
plan name), handling the activation in the fault-free run sets the
engine's active plan to that name, persists the configuration (the
on-disk configuration now carries the new active plan), and succeeds;
and the effect trace extends the prior trace with the save effect
first, the engine apply effect second, and the tray rebuild (starting
with the tray clear) only afterwards — the save happens strictly
before the apply. -/
theorem plan_selection_save_before_apply (w : World) (idx : Nat) (nm : String)
    (h : w.engine.plan_by_index idx = some nm) :
    (on_tray noFaults idx w).1.engine.active = some nm ∧
    (on_tray noFaults idx w).1.engine.disk = ⟨w.engine.plans, some nm⟩ ∧
    (on_tray noFaults idx w).2 = none ∧
    ∃ ts rest, (on_tray noFaults idx w).1.trace =
      w.trace ++ Effect.save_configuration :: Effect.engine_apply ::
        (ts ++ Effect.tray_clear :: rest) := by
  have h' := h
  unfold Engine.plan_by_index at h'
  have hlt : idx < w.engine.number_of_plans := by
    obtain ⟨hl, -⟩ := List.get?_eq_some.mp h'
    simpa [Engine.available_plans, Engine.number_of_plans] using hl
  have hmem : nm ∈ w.engine.available_plans := List.get?_mem h'
  obtain ⟨q, hq⟩ : ∃ q, w.engine.plans.find? (fun p => p.name == nm) = some q := by
    have hsome : (w.engine.plans.find? (fun p => p.name == nm)).isSome := by
      rw [List.find?_isSome]
      obtain ⟨p, hpmem, hpname⟩ :=
        List.mem_map.mp (by simpa [Engine.available_plans] using hmem)
      exact ⟨p, hpmem, by simp [hpname]⟩
    exact Option.isSome_iff_exists.mp hsome
  have hnle : ¬ w.engine.number_of_plans ≤ idx := Nat.not_le.mpr hlt
  unfold on_tray
  simp only [hnle, if_false, h, Engine.set_active_plan]
  simp only [engine_save_configuration, noFaults, Bool.false_eq_true, if_false,
    Res.then_ok]
  rw [apply_some _ _ q rfl (by rfl)
    (by simp only [Engine.active_plan]; exact hq)]
  simp only [Res.then_ok]
  rw [load_tray_eq _ (by rfl) (by rfl)]
  refine ⟨rfl, rfl, rfl, ?_⟩
  refine ⟨[Effect.set_timer (q.update_interval_sec.getD DEFAULT_INTERVAL_SEC)],
    List.map Effect.tray_add (renderedMenu
      ⟨w.engine.plans, some nm, w.engine.configFile, ⟨w.engine.plans, some nm⟩⟩), ?_⟩
  simp

theorem plan_selection_save_before_apply_witness :
    trayWorld.engine.plan_by_index 2 = some "Turbo" ∧
    ((on_tray noFaults 2 trayWorld).1.engine.active = some "Turbo" ∧
     (on_tray noFaults 2 trayWorld).1.engine.disk =
       ⟨trayWorld.engine.plans, some "Turbo"⟩ ∧
     (on_tray noFaults 2 trayWorld).2 = none ∧
     ∃ ts rest, (on_tray noFaults 2 trayWorld).1.trace =
       trayWorld.trace ++ Effect.save_configuration :: Effect.engine_apply ::
         (ts ++ Effect.tray_clear :: rest)) :=
  ⟨rfl, plan_selection_save_before_apply trayWorld 2 "Turbo" rfl⟩

/-! ## Error reporter (claim C7) -/

/-- C7: whenever the run body returns an error — any engine or
OS-binding call failing during startup or the loop — and the dialog
itself can be shown, `run_main` terminates having invoked the modal
error dialog exactly once, with title "Error" and the error's
formatted message, and changes nothing else about the failure-point
world: no retry, no resumption. -/
theorem run_main_reports_error_once (f : Faults) (events : List ROutcome)
    (w w' : World) (e : AfErr) (h1 : f.show_err = false)
    (h2 : run_main_with_error f events w = (w', some e)) :
    run_main f events w =
      some { w' with
             shownErrors := w'.shownErrors ++ [("Error", e.msg)],
             trace := w'.trace ++ [Effect.show_err "Error" e.msg] } := by
  unfold run_main
  rw [h2]
  unfold show_err_message
  simp [h1]

theorem run_main_reports_error_once_witness :
    ({ noFaults with load_configuration := true } : Faults).show_err = false ∧
    run_main_with_error { noFaults with load_configuration := true } [] emptyWorld =
      (emptyWorld, some ⟨"cannot load configuration"⟩) ∧
    run_main { noFaults with load_configuration := true } [] emptyWorld =
      some { emptyWorld with
             shownErrors := [("Error", "cannot load configuration")],
             trace := [Effect.show_err "Error" "cannot load configuration"] } :=
  ⟨rfl, rfl,
    run_main_reports_error_once { noFaults with load_configuration := true } []
      emptyWorld emptyWorld ⟨"cannot load configuration"⟩ rfl rfl⟩

/-! ## Startup sequence (claim C9) -/

theorem Res.then_assoc (r : Res) (k1 k2 : World → Res) :
    Res.then (Res.then r k1) k2 = Res.then r (fun w => Res.then (k1 w) k2) := by
  rcases r with ⟨w, e⟩
  cases e <;> rfl

/-- Spec-side startup sequence (§4.4 `Starting`): load configuration,
Apply Step, Tray Renderer, set tooltip text, in exactly that order. -/
def startupSpec (f : Faults) (w : World) : Res :=
  (engine_load_configuration f w).then fun w =>
  (apply f w).then fun w =>
  (load_tray f w).then fun w =>
  tray_tooltip f w tooltipText

theorem apply_tray_tooltip_trace (w : World) :
    ∃ ts as_,
      (Res.then (apply noFaults w) fun w =>
        Res.then (load_tray noFaults w) fun w =>
          tray_tooltip noFaults w tooltipText).1.trace =
        w.trace ++ Effect.engine_apply ::
          (ts ++ Effect.tray_clear :: (as_ ++ [Effect.tray_tooltip tooltipText])) := by
  cases hap : w.engine.active_plan with
  | none =>
      rw [apply_none _ _ rfl hap]
      simp only [Res.then_ok]
      rw [load_tray_eq _ rfl rfl]
      simp only [Res.then_ok]
      refine ⟨[], List.map Effect.tray_add (renderedMenu w.engine), ?_⟩
      simp [tray_tooltip, noFaults]
  | some p =>
      rw [apply_some _ _ p rfl rfl hap]
      simp only [Res.then_ok]
      rw [load_tray_eq _ rfl rfl]
      simp only [Res.then_ok]
      refine ⟨[Effect.set_timer (p.update_interval_sec.getD DEFAULT_INTERVAL_SEC)],
        List.map Effect.tray_add (renderedMenu w.engine), ?_⟩
      simp [tray_tooltip, noFaults]

/-- C9: the run is exactly the startup sequence — load configuration,
then Apply Step, then Tray Renderer, then tooltip — followed, only on
its success, by the event loop: any startup failure makes the whole
run return that failure without processing any event; and in the
fault-free run the startup trace records the load effect first, the
engine apply second, then the timer effects, then the tray rebuild,
and the tooltip last. -/
theorem startup_sequence_and_failfast (f : Faults) (events : List ROutcome)
    (w : World) :
    run_main_with_error f events w =
      Res.then (startupSpec f w) (runLoop f events) ∧
    ∃ ts as_, (startupSpec noFaults w).1.trace =
      w.trace ++ Effect.load_configuration :: Effect.engine_apply ::
        (ts ++ Effect.tray_clear :: (as_ ++ [Effect.tray_tooltip tooltipText])) := by
  constructor
  · simp only [run_main_with_error, startupSpec, Res.then_assoc]
  · unfold startupSpec
    simp only [engine_load_configuration, noFaults, Bool.false_eq_true, if_false,
      Res.then_ok]
    obtain ⟨ts, as_, h⟩ := apply_tray_tooltip_trace
      { w with
        engine := { w.engine with
                    plans := w.engine.disk.plans,
                    active := w.engine.disk.active },
        trace := w.trace ++ [Effect.load_configuration] }
    simp only [noFaults] at h
    refine ⟨ts, as_, ?_⟩
    rw [h]
    simp
